import Mathlib

/-!
Verification of the selector synthesizer of `src/content.js`
(`getXPath`, lines 245–278, and `generateSelector`, lines 280–300).

The DOM is shallowly embedded: a located node carries the per-node fields the
two functions read (`nodeType`, `nodeName`, `id` attribute, `className`
attribute), its sibling chains, and its parent chain.  For HTML element nodes
`tagName` coincides with `nodeName`, so a single `nodeName` field models both
properties.  An absent `id`/`class` attribute is the empty string, matching the
DOM getters, and a JavaScript truthiness test on those strings is a test for
being non-empty.
-/

/-- `Node.ELEMENT_NODE` from the DOM standard. -/
def ELEMENT_NODE : Nat := 1

/-- `Node.TEXT_NODE` from the DOM standard (used only to build example trees). -/
def TEXT_NODE : Nat := 3

/-- `String.prototype.toLowerCase()` restricted to the ASCII range, which
covers HTML tag names; structurally recursive so that the kernel can
evaluate it (`String.toLower` is extensionally the same map). -/
def toLowerAscii (s : String) : String := ⟨s.data.map Char.toLower⟩

/-- The per-node fields read by the synthesizer. -/
structure NodeData where
  nodeType : Nat
  nodeName : String
  id : String
  className : String
  deriving Repr, DecidableEq

/-- A node located in its document tree: its own data, its preceding siblings
(nearest first, as the `previousSibling` chain visits them), its following
siblings (nearest first, as the `nextSibling` chain visits them), and its
parent chain.  `root` is a node whose `parentNode` is `null`. -/
inductive LNode : Type where
  | root (data : NodeData) (prevSibs nextSibs : List NodeData)
  | child (data : NodeData) (prevSibs nextSibs : List NodeData) (par : LNode)
  deriving Repr, DecidableEq

/-- The node's own data. -/
def LNode.data : LNode → NodeData
  | .root d _ _ => d
  | .child d _ _ _ => d

/-- The `previousSibling` chain, nearest sibling first. -/
def LNode.prevSibs : LNode → List NodeData
  | .root _ p _ => p
  | .child _ p _ _ => p

/-- The `nextSibling` chain, nearest sibling first. -/
def LNode.nextSibs : LNode → List NodeData
  | .root _ _ n => n
  | .child _ _ n _ => n

/-- `element.parentNode`: `none` models `null`. -/
def LNode.parentNode : LNode → Option LNode
  | .root _ _ _ => none
  | .child _ _ _ p => some p

/-- `element.parentElement`: the parent node when it is an element, else
`null` (e.g. when the parent is the document). -/
def parentElement : LNode → Option LNode
  | .root _ _ _ => none
  | .child _ _ _ p => if p.data.nodeType = ELEMENT_NODE then some p else none

/-- The inner `while (sibling)` loop over `previousSibling` in `getXPath`:
count the siblings with `nodeType === Node.ELEMENT_NODE` and the same
`nodeName` as the current element. -/
def countPrevSame (name : String) : List NodeData → Nat
  | [] => 0
  | s :: rest =>
      (if s.nodeType = ELEMENT_NODE ∧ s.nodeName = name then 1 else 0) +
        countPrevSame name rest

/-- The second `while (sibling)` loop over `nextSibling` in `getXPath`: it
breaks as soon as one element sibling with the same `nodeName` is found. -/
def hasNextSame (name : String) : List NodeData → Bool
  | [] => false
  | s :: rest =>
      if s.nodeType = ELEMENT_NODE ∧ s.nodeName = name then true
      else hasNextSame name rest

/-- One iteration of the ancestor loop of `getXPath`: the segment pushed by
`parts.unshift(element.nodeName.toLowerCase() + index)`, where `index` is
`[nb + 1]` when `nbOfPreviousSiblings || hasNextSiblings` is truthy and the
empty string otherwise. -/
def xpathSegment (d : NodeData) (prev next : List NodeData) : String :=
  let nb := countPrevSame d.nodeName prev
  let hasNext := hasNextSame d.nodeName next
  let index := if nb ≠ 0 ∨ hasNext = true then "[" ++ toString (nb + 1) ++ "]" else ""
  toLowerAscii d.nodeName ++ index

/-- The `while (element && element.nodeType === Node.ELEMENT_NODE)` loop of
`getXPath`, producing `parts` in root-to-node order (`unshift` prepends each
new segment): processing stops at the first non-element on the parent chain,
or when `parentNode` is `null`. -/
def xpathParts : LNode → List String
  | .root d prev next =>
      if d.nodeType = ELEMENT_NODE then [xpathSegment d prev next] else []
  | .child d prev next p =>
      if d.nodeType = ELEMENT_NODE then xpathParts p ++ [xpathSegment d prev next]
      else []

/-- `getXPath` from `src/content.js` lines 245–278.  `none` models the `null`
returned when `parts` is empty. -/
def getXPath (element : LNode) : Option String :=
  if element.data.id ≠ "" then
    some ("//*[@id=\"" ++ element.data.id ++ "\"]")
  else
    let parts := xpathParts element
    if parts.length ≠ 0 then some ("/" ++ String.intercalate "/" parts) else none

/-- ASCII whitespace per the DOM/HTML standards (TAB, LF, FF, CR, SPACE);
`class` attribute tokens are split on these characters. -/
def isAsciiWhitespace (c : Char) : Bool :=
  c = ' ' || c = '\t' || c = '\n' || c = Char.ofNat 12 || c = '\r'

/-- Keep the first occurrence of each string, dropping later duplicates (the
"append to an ordered set" step of the DOM ordered set parser). -/
def dedupFirst : List String → List String → List String
  | _, [] => []
  | seen, x :: xs =>
      if x ∈ seen then dedupFirst seen xs else x :: dedupFirst (x :: seen) xs

/-- Split a character list at the characters satisfying `p` (the pieces
between separators, empty pieces included). -/
def splitChars (p : Char → Bool) : List Char → List Char → List String
  | acc, [] => [⟨acc.reverse⟩]
  | acc, c :: cs =>
      if p c then (⟨acc.reverse⟩ : String) :: splitChars p [] cs
      else splitChars p (c :: acc) cs

/-- `element.classList` as iterated by `Array.from`: the DOM ordered set
parser applied to the `class` attribute — split on ASCII whitespace, drop
empty tokens, drop duplicate tokens keeping the first occurrence. -/
def classListOf (className : String) : List String :=
  dedupFirst [] ((splitChars isAsciiWhitespace [] className.data).filter (fun t => t ≠ ""))

/-- `generateSelector` from `src/content.js` lines 280–300. -/
def generateSelector (element : LNode) : String :=
  if element.data.id ≠ "" then "#" ++ element.data.id
  else
    let sel := toLowerAscii element.data.nodeName
    let sel :=
      if element.data.className ≠ "" then
        sel ++ "." ++ String.intercalate "." (classListOf element.data.className)
      else sel
    match parentElement element with
    | some p =>
        if p.data.nodeName ≠ "BODY" then
          (if p.data.id ≠ "" then "#" ++ p.data.id else toLowerAscii p.data.nodeName) ++
            " > " ++ sel
        else sel
    | none => sel

/-!
Spec-side definitions.  The following `spec...` definitions are written from
the wording of the specification (section 4.1), to be compared with the
definitions translated from the source.  The spec speaks of siblings "with the
identical tag name"; only element nodes have a tag name, so the counts range
over element siblings whose `nodeName` matches.
-/

/-- Spec words for one `computeXPath` segment: count preceding siblings with
the identical tag name (`precedingCount`), determine whether any following
sibling shares the identical tag name (`hasFollowing`); if `precedingCount >
0` or `hasFollowing`, the segment is `tagname[precedingCount + 1]`, otherwise
the bare lowercase tag name. -/
def specSegment (d : NodeData) (prev next : List NodeData) : String :=
  let precedingCount :=
    (prev.filter (fun s => s.nodeType == ELEMENT_NODE && s.nodeName == d.nodeName)).length
  let hasFollowing :=
    next.any (fun s => s.nodeType == ELEMENT_NODE && s.nodeName == d.nodeName)
  if precedingCount > 0 ∨ hasFollowing = true then
    toLowerAscii d.nodeName ++ "[" ++ toString (precedingCount + 1) ++ "]"
  else
    toLowerAscii d.nodeName

/-- Spec words for the `computeXPath` walk: from the node up through each
ancestor, inclusive, stopping at the first node whose own node-type is not an
element; the list is in node-to-root order, each entry carrying the data and
sibling chains the segment is computed from. -/
def specChain : LNode → List (NodeData × List NodeData × List NodeData)
  | .root d prev next =>
      if d.nodeType = ELEMENT_NODE then [(d, prev, next)] else []
  | .child d prev next p =>
      if d.nodeType = ELEMENT_NODE then (d, prev, next) :: specChain p else []

/-- The base selector of `generateSelector` (`src/content.js` lines 285–290),
factored out of the function body: the lowercase tag name, with
`.` + `Array.from(element.classList).join('.')` appended when the `className`
string is truthy. -/
def cssBase (d : NodeData) : String :=
  let sel := toLowerAscii d.nodeName
  if d.className ≠ "" then
    sel ++ "." ++ String.intercalate "." (classListOf d.className)
  else sel

/-- Spec words for step 3 of `computeCssSelector`: inspect the immediate
parent only; if a parent (element) exists and its tag is not the document
body, combine `<parent #id, else lowercase parent tag> > <base>`; if there is
no parent, or the parent is the body, return the base unchanged. -/
def specParentStep (n : LNode) (base : String) : String :=
  match parentElement n with
  | some p =>
      if p.data.nodeName ≠ "BODY" then
        (if p.data.id ≠ "" then "#" ++ p.data.id else toLowerAscii p.data.nodeName) ++
          " > " ++ base
      else base
  | none => base

/-!
Syntactic well-formedness checkers for the two output languages, used to
settle the spec's "every code path yields a syntactically valid string"
sentence.  `cssSelectorValid` recognises the fragment of the CSS selector
grammar the synthesizer is meant to emit — compound selectors made of an
optional type selector followed by `#id` / `.class` subclass selectors over
ASCII identifier characters, joined by child (` > `) or descendant (` `)
combinators.  It is deliberately lenient (for example it does not enforce the
rule that an identifier cannot start with a digit, and it does not support
escape sequences), but a string it rejects because a `.` or `#` is not
followed by an identifier character, or because a bare `"` appears, is also
invalid under the full CSS grammar.
-/

/-- ASCII identifier characters of the CSS `ident` fragment. -/
def isIdentChar (c : Char) : Bool :=
  c.isAlphanum || c = '-' || c = '_'

/-- Consume one or more identifier characters; `none` when the input does not
start with an identifier character. -/
def afterIdent : List Char → Option (List Char)
  | [] => none
  | c :: cs => if isIdentChar c then some (cs.dropWhile isIdentChar) else none

/-- Consume a (possibly empty) run of `.ident` / `#ident` subclass selectors;
stops at the first character that opens neither. -/
def parseSubs : Nat → List Char → Option (List Char)
  | 0, _ => none
  | _ + 1, [] => some []
  | f + 1, '.' :: cs => (afterIdent cs).bind (parseSubs f)
  | f + 1, '#' :: cs => (afterIdent cs).bind (parseSubs f)
  | _ + 1, cs => some cs

/-- Consume one non-empty compound selector: either subclass selectors alone,
or a type selector followed by subclass selectors. -/
def parseCompound (f : Nat) (cs : List Char) : Option (List Char) :=
  match cs with
  | '.' :: _ => parseSubs f cs
  | '#' :: _ => parseSubs f cs
  | _ => (afterIdent cs).bind (parseSubs f)

/-- Consume a selector: compound selectors joined by ` > ` or ` `. -/
def parseSelAux : Nat → List Char → Bool
  | 0, _ => false
  | f + 1, cs =>
      match parseCompound f cs with
      | none => false
      | some [] => true
      | some (' ' :: '>' :: ' ' :: rest) => parseSelAux f rest
      | some (' ' :: rest) => parseSelAux f rest
      | some _ => false

/-- Whether `s` is a syntactically valid CSS selector of the emitted fragment.
The fuel `s.length + 1` is sufficient because every parsing step consumes at
least one character. -/
def cssSelectorValid (s : String) : Bool :=
  parseSelAux (s.data.length + 1) s.data

/-- Whether `s` is a well-formed id-based XPath locator `//*[@id="..."]`.  In
XPath 1.0 a double-quoted literal cannot contain a `"` (the grammar has no
escape for it), so the literal between the quotes must be quote-free. -/
def xpathIdLocatorOk (s : String) : Bool :=
  let cs := s.data
  let opening := "//*[@id=\"".data
  let closing := "\"]".data
  opening.isPrefixOf cs && closing.isSuffixOf cs && decide (cs.length ≥ 11) &&
    !((cs.drop 9).take (cs.length - 11)).contains '"'

/-- Two successive calls of `f` on the same unmodified node, as a pair. -/
def callTwice {α : Type} (f : LNode → α) (n : LNode) : α × α :=
  (f n, f n)

/-- `getXPath` together with the tree it was called on.  The source body of
`getXPath` contains no assignment to any property of a DOM node (it only
reassigns the local variables `parts`, `sibling`, `element`), so the call
returns the tree exactly as it received it; the pair records that. -/
def getXPathRun (n : LNode) : Option String × LNode :=
  (getXPath n, n)

/-- `generateSelector` together with the tree it was called on.  The source
body contains no assignment to any property of a DOM node (only to the local
variables `selector`, `parent`), so the tree comes back unchanged. -/
def generateSelectorRun (n : LNode) : String × LNode :=
  (generateSelector n, n)

/-!
Concrete nodes used by the examples of the claims.
-/

/-- An element `NodeData` with the given tag, id and class attribute. -/
def elemData (tag idv cls : String) : NodeData :=
  ⟨ELEMENT_NODE, tag, idv, cls⟩

/-- A text-node sibling. -/
def textData : NodeData := ⟨TEXT_NODE, "#text", "", ""⟩

/-- The 3rd `li` among 5 sibling `li` elements under an id-less root `ul`. -/
def liNode : LNode :=
  .child (elemData "LI" "" "") [elemData "LI" "" "", elemData "LI" "" ""]
    [elemData "LI" "" "", elemData "LI" "" ""] (.root (elemData "UL" "" "") [] [])

/-- A `span` that is the only element of its tag among its siblings (its
siblings are text nodes), under an id-less root `div`. -/
def spanOnly : LNode :=
  .child (elemData "SPAN" "" "") [textData] [textData]
    (.root (elemData "DIV" "" "") [] [])

/-- A `div.btn.primary` under parent `<div id="toolbar">`. -/
def btnNode : LNode :=
  .child (elemData "DIV" "" "btn primary") [] []
    (.root (elemData "DIV" "toolbar" "") [] [])

/-- A `div` with no id, no classes and no parent. -/
def bareDiv : LNode := .root (elemData "DIV" "" "") [] []

/-- A `div` with no id, no parent, and a whitespace-only `class` attribute:
the attribute string is truthy but parses to zero class tokens. -/
def blankClassDiv : LNode := .root (elemData "DIV" "" " ") [] []

/-- A `div` with no parent whose id contains a double quote (`a"b`). -/
def quoteIdDiv : LNode := .root (elemData "DIV" "a\"b" "") [] []

/-!
Helper lemmas relating the translated loops to the spec-side list
combinators.
-/

/-- Appending the empty string is the identity. -/
theorem string_append_empty (s : String) : s ++ "" = s := by
  cases s with
  | mk data => show String.mk (data ++ []) = String.mk data
               rw [List.append_nil]

/-- The `previousSibling` counting loop computes the length of the filtered
sibling list. -/
theorem countPrevSame_eq (name : String) (l : List NodeData) :
    countPrevSame name l =
      (l.filter (fun s => s.nodeType == ELEMENT_NODE && s.nodeName == name)).length := by
  induction l with
  | nil => rfl
  | cons s rest ih =>
    by_cases h : s.nodeType = ELEMENT_NODE ∧ s.nodeName = name
    · simp [countPrevSame, List.filter_cons, h, h.1, h.2, ih, Nat.add_comm]
    · have hb : (s.nodeType == ELEMENT_NODE && s.nodeName == name) = false := by
        simp only [Bool.and_eq_false_iff, beq_eq_false_iff_ne, ne_eq]
        tauto
      simp [countPrevSame, List.filter_cons, h, hb, ih]

/-- The early-exit `nextSibling` loop decides the same property as `List.any`. -/
theorem hasNextSame_eq (name : String) (l : List NodeData) :
    hasNextSame name l =
      l.any (fun s => s.nodeType == ELEMENT_NODE && s.nodeName == name) := by
  induction l with
  | nil => rfl
  | cons s rest ih =>
    by_cases h : s.nodeType = ELEMENT_NODE ∧ s.nodeName = name
    · simp [hasNextSame, h, h.1, h.2]
    · have hb : (s.nodeType == ELEMENT_NODE && s.nodeName == name) = false := by
        simp only [Bool.and_eq_false_iff, beq_eq_false_iff_ne, ne_eq]
        tauto
      simp [hasNextSame, h, hb, ih]

/-- One loop iteration of `getXPath` emits exactly the segment described by
the spec. -/
theorem xpathSegment_eq_spec (d : NodeData) (prev next : List NodeData) :
    xpathSegment d prev next = specSegment d prev next := by
  simp only [xpathSegment, specSegment, countPrevSame_eq, hasNextSame_eq, ne_eq,
    Nat.pos_iff_ne_zero]
  split <;> rename_i hc <;> simp [hc, String.append_assoc, string_append_empty]

/-- The `parts` list built by the ancestor loop is the spec's root-to-node
segment sequence. -/
theorem xpathParts_eq_spec (n : LNode) :
    xpathParts n = ((specChain n).map (fun t => specSegment t.1 t.2.1 t.2.2)).reverse := by
  induction n with
  | root d prev next =>
    by_cases h : d.nodeType = ELEMENT_NODE <;>
      simp [xpathParts, specChain, h, xpathSegment_eq_spec]
  | child d prev next p ih =>
    by_cases h : d.nodeType = ELEMENT_NODE <;>
      simp [xpathParts, specChain, h, ih, xpathSegment_eq_spec]

/-- An element node always contributes at least its own segment. -/
theorem xpathParts_ne_nil (n : LNode) (h : n.data.nodeType = ELEMENT_NODE) :
    xpathParts n ≠ [] := by
  cases n with
  | root d prev next => simp only [LNode.data] at h; simp [xpathParts, h]
  | child d prev next p => simp only [LNode.data] at h; simp [xpathParts, h]

/-- On an element node with no id, `getXPath` returns the slash-joined parts. -/
theorem getXPath_no_id (n : LNode) (h1 : n.data.nodeType = ELEMENT_NODE)
    (h2 : n.data.id = "") :
    getXPath n = some ("/" ++ String.intercalate "/" (xpathParts n)) := by
  have hne : xpathParts n ≠ [] := xpathParts_ne_nil n h1
  simp only [getXPath, h2, ne_eq, not_true_eq_false, if_false, ite_not]
  rw [if_neg]
  intro h0
  exact hne (List.length_eq_zero.mp h0)

/-- C1: for every node with a non-empty `id` attribute, `getXPath` returns
exactly `//*[@id="<id>"]` and `generateSelector` returns exactly `#<id>`,
regardless of the node's classes, tag name, or ancestry (the quantification
ranges over arbitrary class attributes, tags, siblings and parent chains). -/
theorem c1_id_short_circuit (n : LNode) (h : n.data.id ≠ "") :
    getXPath n = some ("//*[@id=\"" ++ n.data.id ++ "\"]") ∧
      generateSelector n = "#" ++ n.data.id := by
  constructor
  · simp [getXPath, h]
  · simp [generateSelector, h]

/-- Witness for C1 at a concrete node with id `toolbar`. -/
theorem c1_witness :
    getXPath (.root (elemData "DIV" "toolbar" "") [] []) = some "//*[@id=\"toolbar\"]" ∧
      generateSelector (.root (elemData "DIV" "toolbar" "") [] []) = "#toolbar" := by
  have h := c1_id_short_circuit (.root (elemData "DIV" "toolbar" "") [] []) (by decide)
  exact ⟨h.1.trans (by decide), h.2.trans (by decide)⟩

/-- C2: for every element node with no id, `getXPath` walks up through each
element ancestor and emits, for each element on the path, the positional
segment `tagname[precedingCount + 1]` when `precedingCount > 0` or a
following sibling shares the tag name, and the bare lowercase tag name
otherwise, joined in root-to-node order with `/` and a leading `/`; the 3rd
`li` of 5 under an id-less `ul` yields `/ul/li[3]`, and an element that is
the only one of its tag among its siblings yields a bare segment. -/
theorem c2_xpath_segments :
    (∀ n : LNode, n.data.nodeType = ELEMENT_NODE → n.data.id = "" →
        getXPath n =
          some ("/" ++ String.intercalate "/"
            (((specChain n).reverse).map (fun t => specSegment t.1 t.2.1 t.2.2)))) ∧
      getXPath liNode = some "/ul/li[3]" ∧ getXPath spanOnly = some "/div/span" := by
  refine ⟨?_, by decide, by decide⟩
  intro n h1 h2
  rw [getXPath_no_id n h1 h2, xpathParts_eq_spec]
  simp [List.map_reverse]

/-- Witness for C2 at the 3rd `li` of 5. -/
theorem c2_witness :
    getXPath liNode =
      some ("/" ++ String.intercalate "/"
        (((specChain liNode).reverse).map (fun t => specSegment t.1 t.2.1 t.2.2))) :=
  c2_xpath_segments.1 liNode (by decide) (by decide)

/-- C3 counterexample: the claim asserts that every returned string is
syntactically valid, but on an element whose `class` attribute is a single
space, `generateSelector` returns `div.`, which is not a syntactically valid
CSS selector (a `.` must be followed by an identifier). -/
theorem c3_counterexample :
    generateSelector blankClassDiv = "div." ∧ cssSelectorValid "div." = false :=
  ⟨by decide, by decide⟩

/-- C3 (amended): on every element node both functions terminate and produce
a string — `getXPath` never returns `null` on an element and the functions
are total, so no exception is possible — but syntactic validity of the
returned string is not guaranteed. -/
theorem c3_total_on_elements (n : LNode) (h : n.data.nodeType = ELEMENT_NODE) :
    (∃ s : String, getXPath n = some s) ∧ (∃ s : String, generateSelector n = s) := by
  refine ⟨?_, ⟨generateSelector n, rfl⟩⟩
  by_cases hid : n.data.id = ""
  · exact ⟨_, getXPath_no_id n h hid⟩
  · exact ⟨"//*[@id=\"" ++ n.data.id ++ "\"]", by simp [getXPath, hid]⟩

/-- Witness for C3 (amended) at the bare disconnected `div`. -/
theorem c3_witness :
    (∃ s : String, getXPath bareDiv = some s) ∧
      (∃ s : String, generateSelector bareDiv = s) :=
  c3_total_on_elements bareDiv (by decide)

/-- C4: for every node with no id, `generateSelector` inspects only the
immediate parent: with a parent element whose tag is not `BODY` the result is
`<parent #id, else lowercase parent tag> > <base>`, and with no parent
element, or a `BODY` parent, the base selector is returned unchanged; the
spec's example `#toolbar > div.btn.primary` is included. -/
theorem c4_parent_combine :
    (∀ n : LNode, n.data.id = "" →
        generateSelector n = specParentStep n (cssBase n.data)) ∧
      generateSelector btnNode = "#toolbar > div.btn.primary" := by
  refine ⟨?_, by decide⟩
  intro n h
  cases n with
  | root d prev next =>
    simp only [LNode.data] at h
    simp [generateSelector, specParentStep, cssBase, parentElement, LNode.data, h]
  | child d prev next p =>
    simp only [LNode.data] at h
    simp [generateSelector, specParentStep, cssBase, parentElement, LNode.data, h]

/-- Witness for C4 at the `div.btn.primary` under `#toolbar`. -/
theorem c4_witness :
    generateSelector btnNode = specParentStep btnNode (cssBase btnNode.data) :=
  c4_parent_combine.1 btnNode (by decide)

/-- C5 counterexample: a node whose `class` attribute is a single space has
no classes (its parsed class list is empty), so the claim requires the bare
tag name `div`; the code returns `div.` instead, because the class suffix is
gated on the raw attribute string being non-empty. -/
theorem c5_counterexample :
    classListOf (blankClassDiv.data.className) = [] ∧
      generateSelector blankClassDiv = "div." ∧
      generateSelector blankClassDiv ≠ "div" :=
  ⟨by decide, by decide, by decide⟩

/-- C5 (amended): for a node with no id (stated on parentless nodes, where
the base selector is returned as-is), the base selector is the lowercase tag
name when the `className` attribute string is empty; when the `className`
string is non-empty — even if it parses to zero classes — the code appends
`.` followed by the `.`-join of the parsed class tokens, where the parse is
the DOM ordered-set parse: split on ASCII whitespace, empties dropped,
duplicates removed keeping the first occurrence. -/
theorem c5_base_selector (d : NodeData) (prev next : List NodeData) (h : d.id = "") :
    (d.className = "" →
        generateSelector (.root d prev next) = toLowerAscii d.nodeName) ∧
      (d.className ≠ "" →
        generateSelector (.root d prev next) =
          toLowerAscii d.nodeName ++ "." ++
            String.intercalate "." (classListOf d.className)) := by
  constructor <;> intro hc <;>
    simp [generateSelector, parentElement, LNode.data, h, hc]

/-- Witness for C5 (amended) at a `div` with classes `btn primary`. -/
theorem c5_witness :
    generateSelector (.root (elemData "DIV" "" "btn primary") [] []) =
      toLowerAscii "DIV" ++ "." ++ String.intercalate "." (classListOf "btn primary") :=
  (c5_base_selector (elemData "DIV" "" "btn primary") [] [] (by decide)).2 (by decide)

/-- C6: for a `div` with no id, no classes, and no parent, `generateSelector`
returns exactly `div` and `getXPath` returns exactly `/div` — one segment,
with no failure for the disconnected node. -/
theorem c6_disconnected_div :
    generateSelector bareDiv = "div" ∧ getXPath bareDiv = some "/div" :=
  ⟨by decide, by decide⟩

/-- C7: calling `getXPath` or `generateSelector` twice on the same unmodified
node yields identical strings on both calls; in the embedding both operations
are functions of the node's attribute and sibling state alone, with no
retained state between the two calls of `callTwice`. -/
theorem c7_idempotent (n : LNode) :
    (callTwice getXPath n).1 = (callTwice getXPath n).2 ∧
      (callTwice generateSelector n).1 = (callTwice generateSelector n).2 :=
  ⟨rfl, rfl⟩

/-- C8: neither function creates, mutates, or destroys any node of the tree:
the tree comes back from either call exactly as it went in, the call only
producing the result string; `getXPathRun`/`generateSelectorRun` record the
tree alongside the result (the source bodies assign only to local variables,
never to a node property). -/
theorem c8_no_mutation (n : LNode) :
    (getXPathRun n).2 = n ∧ (generateSelectorRun n).2 = n ∧
      (getXPathRun n).1 = getXPath n ∧ (generateSelectorRun n).1 = generateSelector n :=
  ⟨rfl, rfl, rfl, rfl⟩

/-- C9: the id value is interpolated verbatim into both outputs with no
escaping or quoting — for every non-empty id string, including ones holding
a double quote, whitespace or CSS metacharacters, `getXPath` returns the
literal concatenation `//*[@id="` ++ id ++ `"]` and `generateSelector`
returns `#` ++ id; for the id `a"b` the resulting strings fail the locator
well-formedness checks. -/
theorem c9_verbatim_id :
    (∀ idv : String, idv ≠ "" →
        getXPath (.root (elemData "DIV" idv "") [] []) =
            some ("//*[@id=\"" ++ idv ++ "\"]") ∧
          generateSelector (.root (elemData "DIV" idv "") [] []) = "#" ++ idv) ∧
      getXPath quoteIdDiv = some "//*[@id=\"a\"b\"]" ∧
      xpathIdLocatorOk "//*[@id=\"a\"b\"]" = false ∧
      generateSelector quoteIdDiv = "#a\"b" ∧
      cssSelectorValid "#a\"b" = false := by
  refine ⟨?_, by decide, by decide, by decide, by decide⟩
  intro idv h
  constructor
  · simp [getXPath, elemData, LNode.data, h]
  · simp [generateSelector, elemData, LNode.data, h]

/-- Witness for C9 at the id `a"b`. -/
theorem c9_witness :
    getXPath (.root (elemData "DIV" "a\"b" "") [] []) =
        some ("//*[@id=\"" ++ "a\"b" ++ "\"]") ∧
      generateSelector (.root (elemData "DIV" "a\"b" "") [] []) = "#" ++ "a\"b" :=
  c9_verbatim_id.1 "a\"b" (by decide)

/-- C10: a node with no id whose truthy `class` attribute parses to zero
class tokens still gets the `.` appended, so the base selector is the
lowercase tag name followed by a trailing dot; `div.` is not a syntactically
valid CSS selector. -/
theorem c10_trailing_dot :
    (∀ d : NodeData, ∀ prev next : List NodeData,
        d.id = "" → d.className ≠ "" → classListOf d.className = [] →
          generateSelector (.root d prev next) = toLowerAscii d.nodeName ++ ".") ∧
      generateSelector blankClassDiv = "div." ∧ cssSelectorValid "div." = false := by
  refine ⟨?_, by decide, by decide⟩
  intro d prev next h1 h2 h3
  simp [generateSelector, parentElement, LNode.data, h1, h2, h3]
  rw [show String.intercalate "." ([] : List String) = "" from rfl,
    string_append_empty]

/-- Witness for C10 at the single-space `class` attribute. -/
theorem c10_witness :
    generateSelector (.root (elemData "DIV" "" " ") [] []) =
      toLowerAscii (elemData "DIV" "" " ").nodeName ++ "." :=
  c10_trailing_dot.1 (elemData "DIV" "" " ") [] [] (by decide) (by decide) (by decide)
